import Mathlib

/-!
Shallow embedding of the admin dashboard (src/frontend/app/admin/page.tsx)
and the login page (src/frontend/app/login/page.tsx) of the court
cause-list frontend, together with spec-modelled fragments of the backend
pipeline that the dashboard calls.  Async handlers are split into a
begin phase (state update plus the outgoing request, if any) and a
resolve phase (state update from the response outcome).
-/

/-- One row of the scraper run log, as consumed by the dashboard
(interface ScraperLog). -/
structure ScraperLog where
  id : Nat
  status : String
  records_extracted : Nat
  error_message : Option String
  run_date : String
  created_at : String
  deriving Repr, DecidableEq

/-- The scraper status snapshot consumed by the dashboard
(interface ScraperStatus). -/
structure ScraperStatus where
  status : String
  last_run : Option String
  last_status : Option String
  total_records : Nat
  last_extraction_count : Nat
  deriving Repr, DecidableEq

/-- One discovered court (interface Court). -/
structure Court where
  court_number : String
  court_name : String
  judge : String
  url : String
  has_data : Bool
  deriving Repr, DecidableEq

/-- The discovery response consumed by the dashboard
(interface CourtDiscoveryResponse). -/
structure CourtDiscoveryResponse where
  date : String
  total_courts_checked : Nat
  courts_with_data : Nat
  courts : List Court
  deriving Repr, DecidableEq

/-- The response body of the fetch-court-data endpoint, as read by
fetchSelectedCourts (fields data.total_cases_saved, data.courts_processed). -/
structure FetchCourtDataResponse where
  total_cases_saved : Nat
  courts_processed : Nat
  deriving Repr, DecidableEq

/-- The JSON body sent by fetchSelectedCourts. -/
structure FetchCourtDataBody where
  target_date : String
  court_numbers : List String
  deriving Repr, DecidableEq

inductive HttpMethod where
  | get
  | post
  deriving Repr, DecidableEq

/-- An outgoing HTTP request issued by the frontend: method, path, query
parameters (in URL order), headers, and optional JSON body. -/
structure Request where
  method : HttpMethod
  path : String
  query : List (String × String)
  headers : List (String × String)
  body : Option FetchCourtDataBody
  deriving Repr, DecidableEq

/-- The React state of AdminPage: one field per useState hook, in source
order. -/
structure AdminState where
  logs : List ScraperLog
  status : Option ScraperStatus
  loading : Bool
  triggering : Bool
  targetDate : String
  error : String
  message : String
  liveLogs : List String
  discoveryDate : String
  discovering : Bool
  discoveredCourts : List Court
  selectedCourts : List String
  fetchingCourts : Bool
  deriving Repr, DecidableEq

/-- The initial AdminPage state: the useState initial values, in source
order. -/
def initialAdminState : AdminState :=
  { logs := [], status := none, loading := true, triggering := false,
    targetDate := "", error := "", message := "", liveLogs := [],
    discoveryDate := "", discovering := false, discoveredCourts := [],
    selectedCourts := [], fetchingCourts := false }

/-- stopScraper: sends a POST to the stop endpoint with only the
authorization header, and sets the message. -/
def stopScraper (token : String) (s : AdminState) : AdminState × Request :=
  ({ s with message := "Stop requested..." },
   { method := .post, path := "/api/proxy/api/scraper/stop",
     query := [], headers := [("Authorization", "Bearer " ++ token)],
     body := none })

/-- discoverCourts, begin phase: with no discovery date the handler sets
an error and returns without any request; otherwise it sets discovering,
clears error, message, discoveredCourts and selectedCourts, and issues
the discover-courts GET request. -/
def discoverCourtsBegin (token : String) (s : AdminState) :
    AdminState × Option Request :=
  if s.discoveryDate = "" then
    ({ s with error := "Please select a date for court discovery" }, none)
  else
    ({ s with
       discovering := true, error := "", message := "",
       discoveredCourts := [], selectedCourts := [] },
     some { method := .get,
            path := "/api/proxy/api/scraper/discover-courts",
            query := [("target_date", s.discoveryDate),
                      ("court_start", "1"), ("court_end", "60")],
            headers := [("Authorization", "Bearer " ++ token)],
            body := none })

/-- The possible outcomes of the discover-courts request, as handled by
discoverCourts. -/
inductive DiscoverOutcome where
  | ok (data : CourtDiscoveryResponse)
  | notOk
  | exn (msg : String)
  deriving Repr, DecidableEq

/-- JavaScript string-or-default: the empty string is falsy, so
err.message or a fallback yields the fallback on the empty string. -/
def jsOr (v fallback : String) : String :=
  if v = "" then fallback else v

/-- discoverCourts, resolve phase: on ok, store the courts, set the
summary message, and (when nonempty) select all discovered court
numbers; on not-ok or exception, set an error; finally clear
discovering. -/
def discoverCourtsResolve (s : AdminState) : DiscoverOutcome → AdminState
  | .ok data =>
      { s with
        discoveredCourts := data.courts,
        message := "Found " ++ toString data.courts_with_data ++
          " courts with data out of " ++
          toString data.total_courts_checked ++ " checked",
        selectedCourts :=
          if data.courts.length > 0 then
            data.courts.map (fun c => c.court_number)
          else s.selectedCourts,
        discovering := false }
  | .notOk =>
      { s with error := "Failed to discover courts", discovering := false }
  | .exn msg =>
      { s with
        error := jsOr msg "Failed to discover courts",
        discovering := false }

/-- fetchSelectedCourts, begin phase: with an empty selection the handler
sets an error and returns without any request; otherwise it sets
fetchingCourts, clears error and message, and issues the
fetch-court-data POST whose body pairs the discovery date with the
selected court numbers. -/
def fetchSelectedCourtsBegin (token : String) (s : AdminState) :
    AdminState × Option Request :=
  if s.selectedCourts.length = 0 then
    ({ s with error := "No courts selected" }, none)
  else
    ({ s with fetchingCourts := true, error := "", message := "" },
     some { method := .post,
            path := "/api/proxy/api/scraper/fetch-court-data",
            query := [],
            headers := [("Authorization", "Bearer " ++ token),
                        ("Content-Type", "application/json")],
            body := some { target_date := s.discoveryDate,
                           court_numbers := s.selectedCourts } })

/-- The possible outcomes of the fetch-court-data request, as handled by
fetchSelectedCourts. -/
inductive FetchOutcome where
  | ok (data : FetchCourtDataResponse)
  | notOk (detail : Option String)
  | exn (msg : String)
  deriving Repr, DecidableEq

/-- fetchSelectedCourts, resolve phase: on ok, report total_cases_saved
and courts_processed in the message; otherwise set an error; finally
clear fetchingCourts. -/
def fetchSelectedCourtsResolve (s : AdminState) : FetchOutcome → AdminState
  | .ok data =>
      { s with
        message := "Successfully saved " ++
          toString data.total_cases_saved ++ " cases from " ++
          toString data.courts_processed ++ " courts",
        fetchingCourts := false }
  | .notOk detail =>
      { s with
        error := match detail with
          | some d => jsOr d "Failed to fetch court data"
          | none => "Failed to fetch court data",
        fetchingCourts := false }
  | .exn msg =>
      { s with
        error := jsOr msg "Failed to fetch court data",
        fetchingCourts := false }

/-- toggleCourtSelection: remove the court number if present, append it
otherwise. -/
def toggleCourtSelection (courtNumber : String) (prev : List String) :
    List String :=
  if courtNumber ∈ prev then prev.filter (fun c => c != courtNumber)
  else prev ++ [courtNumber]

/-- selectAllCourts: select every discovered court number, in discovery
order. -/
def selectAllCourts (discoveredCourts : List Court) : List String :=
  discoveredCourts.map (fun c => c.court_number)

/-- deselectAllCourts: clear the selection. -/
def deselectAllCourts : List String := []

/-- The court numbers of a court list (discovery order). -/
def courtNumbers (courts : List Court) : List String :=
  courts.map (fun c => c.court_number)

/-- The disabled condition of the Run Scraper Now button. -/
def runScraperNowDisabled (s : AdminState) : Bool := s.triggering

/-- The disabled condition of the Trigger Scraper Manually button. -/
def triggerScraperManuallyDisabled (s : AdminState) : Bool := s.triggering

/-- The disabled condition of the Discover Courts button. -/
def discoverCourtsDisabled (s : AdminState) : Bool :=
  s.discovering || s.discoveryDate == ""

/-- The disabled condition of the Fetch Data from Selected Courts
button. -/
def fetchSelectedCourtsDisabled (s : AdminState) : Bool :=
  s.fetchingCourts || s.selectedCourts.length == 0

/-- The Stop button is rendered exactly when triggering is true. -/
def stopButtonRendered (s : AdminState) : Bool := s.triggering

/-- Some run kind is in progress on the dashboard. -/
def runActive (s : AdminState) : Bool :=
  s.triggering || s.discovering || s.fetchingCourts

/-- The polling interval of the live-progress effect, in milliseconds. -/
def pollIntervalMs : Nat := 2000

/-- The live-progress GET request issued by each poll tick. -/
def progressRequest (token : String) : Request :=
  { method := .get, path := "/api/proxy/api/scraper/progress",
    query := [], headers := [("Authorization", "Bearer " ++ token)],
    body := none }

/-- The live-progress view maintained by the polling effect: whether the
interval is active, and the displayed log lines. -/
structure ProgressView where
  polling : Bool
  liveLogs : List String
  deriving Repr, DecidableEq

/-- Events of the live-progress effect: a run starting (some flag among
triggering, discovering, fetchingCourts becomes true), a poll response
arriving with res.ok (carrying data.logs when present), a poll failing,
and the run ending (all flags false again). -/
inductive ProgressEvent where
  | runStart
  | pollSuccess (logs : Option (List String))
  | pollError
  | runEnd
  deriving Repr, DecidableEq

/-- One step of the live-progress effect: run start clears the live logs
and starts the interval; a successful poll whose body has logs replaces
the live logs wholesale (only while polling); a failed poll changes
nothing; run end stops the interval and leaves the logs intact. -/
def progressStep (v : ProgressView) : ProgressEvent → ProgressView
  | .runStart => { polling := true, liveLogs := [] }
  | .pollSuccess logs =>
      if v.polling then
        match logs with
        | some l => { v with liveLogs := l }
        | none => v
      else v
  | .pollError => v
  | .runEnd => { v with polling := false }

/-- Fold a sequence of progress events over a view. -/
def applyEvents (v : ProgressView) (es : List ProgressEvent) : ProgressView :=
  es.foldl progressStep v

/-- The last present payload in a sequence of poll payloads. -/
def lastSome : List (Option (List String)) → Option (List String)
  | [] => none
  | p :: ps =>
      match lastSome ps with
      | some l => some l
      | none => p

/-- Modelled from the spec: the backend discovery run (RunCoordinator
discovery mode, not under src/) checks every court number in the
requested inclusive range, decides has_data per court via CourtFilter,
and reports the pair (total_courts_checked, courts_with_data). -/
def discoverRun (hasData : Nat → Bool) (court_start court_end : Nat) :
    Nat × Nat :=
  let courts := (List.range (court_end + 1 - court_start)).map
    (fun i => i + court_start)
  (courts.length, (courts.filter hasData).length)

/-- The process-wide progress state of the spec data model. -/
structure ProgressState where
  is_running : Bool
  stop_requested : Bool
  log_lines : List String
  deriving Repr, DecidableEq

/-- Modelled from the spec: ProgressTracker.requestStop (not under src/)
sets the stop flag; external callers are set-only writers of it and
never clear it. -/
def requestStop (st : ProgressState) : ProgressState :=
  { st with stop_requested := true }

/-- Field names of the ScraperStatus interface, in source order. -/
def scraperStatusFields : List String :=
  ["status", "last_run", "last_status", "total_records",
   "last_extraction_count"]

/-- Field names of the ScraperLog interface, in source order. -/
def scraperLogFields : List String :=
  ["id", "status", "records_extracted", "error_message", "run_date",
   "created_at"]

/-- Field names of the Court interface, in source order. -/
def courtFields : List String :=
  ["court_number", "court_name", "judge", "url", "has_data"]

/-- Field names of the CourtDiscoveryResponse interface, in source
order. -/
def courtDiscoveryResponseFields : List String :=
  ["date", "total_courts_checked", "courts_with_data", "courts"]

/-- Field names of the RunStatusSnapshot record of the spec data
model. -/
def specRunStatusSnapshotFields : List String :=
  ["status", "last_run", "last_status", "total_records",
   "last_extraction_count"]

/-- Field names of the RunLog record of the spec data model. -/
def specRunLogFields : List String :=
  ["id", "status", "records_extracted", "error_message", "run_date",
   "created_at"]

/-- Field names of the CourtSummary record of the spec data model. -/
def specCourtSummaryFields : List String :=
  ["court_number", "court_name", "judge", "url", "has_data"]

/-- Field names of the discover-mode RunSummary of the spec external
interface. -/
def specDiscoverSummaryFields : List String :=
  ["date", "total_courts_checked", "courts_with_data", "courts"]

/-- The outcomes of the login request, as handled by handleLogin. -/
inductive LoginOutcome where
  | ok (access_token : String)
  | notOk
  | aborted
  | exn (msg : String)
  deriving Repr, DecidableEq

/-- The observable result of one handleLogin invocation. -/
structure LoginResult where
  storedToken : Option String
  navigatedTo : Option String
  error : String
  loading : Bool
  timerCancelled : Bool
  deriving Repr, DecidableEq

/-- The login request timeout in milliseconds: the abort timer fires
after this long. -/
def loginTimeoutMs : Nat := 10000

/-- handleLogin, by outcome: ok stores the token and navigates to the
search page; a non-ok response raises Invalid credentials; an abort
(timeout) reports the timeout message; any other exception reports its
message or Login failed; in every case the finally block cancels the
timer and clears loading. -/
def handleLogin : LoginOutcome → LoginResult
  | .ok tok =>
      { storedToken := some tok, navigatedTo := some "/search",
        error := "", loading := false, timerCancelled := true }
  | .notOk =>
      { storedToken := none, navigatedTo := none,
        error := "Invalid credentials", loading := false,
        timerCancelled := true }
  | .aborted =>
      { storedToken := none, navigatedTo := none,
        error := "Login timed out. Please ensure the backend API is running and try again.",
        loading := false, timerCancelled := true }
  | .exn msg =>
      { storedToken := none, navigatedTo := none,
        error := jsOr msg "Login failed", loading := false,
        timerCancelled := true }

/-- The dashboard state in which only a discovery run is in progress:
discovering is true, triggering and fetchingCourts are false, a
discovery date is chosen and one court is selected. -/
def c1State : AdminState :=
  { initialAdminState with
    loading := false, discovering := true,
    discoveryDate := "2025-01-15", selectedCourts := ["3"] }

/-- The dashboard state in which all three run kinds are flagged in
progress at once. -/
def c1AllState : AdminState :=
  { initialAdminState with
    loading := false, triggering := true, discovering := true,
    fetchingCourts := true, discoveryDate := "2025-01-15",
    selectedCourts := ["3"] }

/-- Claim C1, counterexample: in the state where only a discovery run is
in progress, a run kind is active yet both scraper-trigger buttons and
the Fetch Data from Selected Courts button are still enabled, so it is
false that every run-starting control is disabled whenever any run kind
is in progress. -/
theorem C1_counterexample :
    runActive c1State = true ∧
    runScraperNowDisabled c1State = false ∧
    triggerScraperManuallyDisabled c1State = false ∧
    fetchSelectedCourtsDisabled c1State = false := by decide

/-- Claim C1, amended: each run-starting control is disabled while a run
of its own kind is in progress (the two scraper-trigger buttons while
triggering, the Discover Courts button while discovering, the Fetch Data
from Selected Courts button while fetchingCourts), so a second trigger
of the same kind cannot be issued while that kind of run is active; a
control is not necessarily disabled while a run of another kind is
active. -/
theorem C1_own_kind_disables (s : AdminState) :
    (s.triggering = true → runScraperNowDisabled s = true ∧
      triggerScraperManuallyDisabled s = true) ∧
    (s.discovering = true → discoverCourtsDisabled s = true) ∧
    (s.fetchingCourts = true → fetchSelectedCourtsDisabled s = true) := by
  refine ⟨fun h => ?_, fun h => ?_, fun h => ?_⟩ <;>
    simp [runScraperNowDisabled, triggerScraperManuallyDisabled,
      discoverCourtsDisabled, fetchSelectedCourtsDisabled, h]

/-- Witness for C1_own_kind_disables at the state where all three run
kinds are in progress. -/
theorem C1_witness :
    runScraperNowDisabled c1AllState = true ∧
    triggerScraperManuallyDisabled c1AllState = true ∧
    discoverCourtsDisabled c1AllState = true ∧
    fetchSelectedCourtsDisabled c1AllState = true := by
  obtain ⟨h1, h2, h3⟩ := C1_own_kind_disables c1AllState
  exact ⟨(h1 rfl).1, (h1 rfl).2, h2 rfl, h3 rfl⟩

/-- Claim C2: for every state with a chosen (nonempty) discovery date,
discoverCourts issues exactly the discover-courts GET request carrying
target_date equal to that date, court_start 1 and court_end 60; and the
spec-modelled backend discovery over the range [1,60] reports
total_courts_checked equal to 60 whatever courts have data. -/
theorem C2_discovery_request_range (token : String) (s : AdminState)
    (h : ¬ s.discoveryDate = "") :
    (discoverCourtsBegin token s).2 =
      some { method := .get,
             path := "/api/proxy/api/scraper/discover-courts",
             query := [("target_date", s.discoveryDate),
                       ("court_start", "1"), ("court_end", "60")],
             headers := [("Authorization", "Bearer " ++ token)],
             body := none } ∧
    (∀ hasData : Nat → Bool, (discoverRun hasData 1 60).1 = 60) := by
  constructor
  · simp [discoverCourtsBegin, h]
  · intro hasData
    rfl

/-- The dashboard state with the discovery date 2025-01-15 chosen. -/
def c2State : AdminState :=
  { initialAdminState with discoveryDate := "2025-01-15" }

/-- Witness for C2_discovery_request_range at a concrete date. -/
theorem C2_witness :
    (discoverCourtsBegin "tok" c2State).2 =
      some { method := .get,
             path := "/api/proxy/api/scraper/discover-courts",
             query := [("target_date", "2025-01-15"),
                       ("court_start", "1"), ("court_end", "60")],
             headers := [("Authorization", "Bearer tok")],
             body := none } ∧
    (discoverRun (fun n => decide (n = 3)) 1 60).1 = 60 := by
  have h := C2_discovery_request_range "tok" c2State (by decide)
  refine ⟨?_, h.2 (fun n => decide (n = 3))⟩
  rw [h.1]
  rfl

/-- Claim C6: a discovery trigger with a missing date is rejected
synchronously: no request is sent, the error message is set, the
discovering flag is left untouched, and in the same state the Discover
Courts button is disabled. -/
theorem C6_missing_date_rejected (token : String) (s : AdminState)
    (h : s.discoveryDate = "") :
    (discoverCourtsBegin token s).2 = none ∧
    ((discoverCourtsBegin token s).1).error =
      "Please select a date for court discovery" ∧
    ((discoverCourtsBegin token s).1).discovering = s.discovering ∧
    discoverCourtsDisabled s = true := by
  simp [discoverCourtsBegin, h, discoverCourtsDisabled]

/-- Witness for C6_missing_date_rejected at the initial state, whose
discovery date is empty. -/
theorem C6_witness :
    (discoverCourtsBegin "tok" initialAdminState).2 = none ∧
    ((discoverCourtsBegin "tok" initialAdminState).1).error =
      "Please select a date for court discovery" ∧
    ((discoverCourtsBegin "tok" initialAdminState).1).discovering =
      initialAdminState.discovering ∧
    discoverCourtsDisabled initialAdminState = true :=
  C6_missing_date_rejected "tok" initialAdminState rfl

/-- Claim C3: with a non-empty selection, fetchSelectedCourts issues
exactly the fetch-court-data POST whose body pairs the discovery date
with the selected court-number list, and on an ok response the reported
summary consists of total_cases_saved and courts_processed; with an
empty selection no request is sent and the error is set instead. -/
theorem C3_fetch_request_shape (token : String) (s : AdminState)
    (data : FetchCourtDataResponse) :
    (s.selectedCourts = [] →
      (fetchSelectedCourtsBegin token s).2 = none ∧
      ((fetchSelectedCourtsBegin token s).1).error = "No courts selected") ∧
    (s.selectedCourts ≠ [] →
      (fetchSelectedCourtsBegin token s).2 =
        some { method := .post,
               path := "/api/proxy/api/scraper/fetch-court-data",
               query := [],
               headers := [("Authorization", "Bearer " ++ token),
                           ("Content-Type", "application/json")],
               body := some { target_date := s.discoveryDate,
                              court_numbers := s.selectedCourts } }) ∧
    (fetchSelectedCourtsResolve s (.ok data)).message =
      "Successfully saved " ++ toString data.total_cases_saved ++
      " cases from " ++ toString data.courts_processed ++ " courts" := by
  refine ⟨fun h => ?_, fun h => ?_, rfl⟩
  · simp [fetchSelectedCourtsBegin, h]
  · simp [fetchSelectedCourtsBegin, List.length_eq_zero, h]

/-- The dashboard state after a discovery on 2025-01-15 with courts 3
and 17 selected. -/
def c3State : AdminState :=
  { initialAdminState with
    discoveryDate := "2025-01-15", selectedCourts := ["3", "17"] }

/-- Witness for C3_fetch_request_shape at an empty and at a twofold
selection. -/
theorem C3_witness :
    (fetchSelectedCourtsBegin "tok" initialAdminState).2 = none ∧
    (fetchSelectedCourtsBegin "tok" c3State).2 =
      some { method := .post,
             path := "/api/proxy/api/scraper/fetch-court-data",
             query := [],
             headers := [("Authorization", "Bearer tok"),
                         ("Content-Type", "application/json")],
             body := some { target_date := "2025-01-15",
                            court_numbers := ["3", "17"] } } ∧
    (fetchSelectedCourtsResolve c3State
      (FetchOutcome.ok
        { total_cases_saved := 12, courts_processed := 2 })).message =
      "Successfully saved 12 cases from 2 courts" := by
  have h0 := C3_fetch_request_shape "tok" initialAdminState
    { total_cases_saved := 12, courts_processed := 2 }
  have h1 := C3_fetch_request_shape "tok" c3State
    { total_cases_saved := 12, courts_processed := 2 }
  refine ⟨(h0.1 rfl).1, ?_, ?_⟩
  · rw [h1.2.1 (by decide)]
    decide
  · rw [h1.2.2]
    decide

/-- Claim C5: the stop request is a POST with no query parameters, no
body and only the authorization header; the spec-modelled requestStop
only sets the stop flag (it never clears it and touches nothing else);
and the Stop control is rendered only while triggering is true. -/
theorem C5_stop_request (token : String) (s : AdminState)
    (st : ProgressState) (h : stopButtonRendered s = true) :
    (stopScraper token s).2.method = .post ∧
    (stopScraper token s).2.query = [] ∧
    (stopScraper token s).2.body = none ∧
    (stopScraper token s).2.headers =
      [("Authorization", "Bearer " ++ token)] ∧
    ((stopScraper token s).1).message = "Stop requested..." ∧
    (requestStop st).stop_requested = true ∧
    (requestStop st).log_lines = st.log_lines ∧
    (requestStop st).is_running = st.is_running ∧
    s.triggering = true :=
  ⟨rfl, rfl, rfl, rfl, rfl, rfl, rfl, rfl, h⟩

/-- The dashboard state in which a scraper run is triggering. -/
def c5State : AdminState :=
  { initialAdminState with loading := false, triggering := true }

/-- A progress state in the middle of a run, with no stop requested
yet. -/
def c5Progress : ProgressState :=
  { is_running := true, stop_requested := false,
    log_lines := ["Court 1 done"] }

/-- Witness for C5_stop_request at the triggering state. -/
theorem C5_witness :
    (stopScraper "tok" c5State).2.query = [] ∧
    (stopScraper "tok" c5State).2.body = none ∧
    (requestStop c5Progress).stop_requested = true ∧
    c5State.triggering = true := by
  have h := C5_stop_request "tok" c5State c5Progress rfl
  exact ⟨h.2.1, h.2.2.1, h.2.2.2.2.2.1, h.2.2.2.2.2.2.2.2⟩

/-- Claim C7: the data shapes consumed by the dashboard match the spec
data model field for field: the ScraperStatus interface matches
RunStatusSnapshot, the ScraperLog interface matches RunLog, the Court
interface matches CourtSummary, and the CourtDiscoveryResponse
interface matches the discover-mode RunSummary. -/
theorem C7_field_shapes :
    scraperStatusFields = specRunStatusSnapshotFields ∧
    scraperLogFields = specRunLogFields ∧
    courtFields = specCourtSummaryFields ∧
    courtDiscoveryResponseFields = specDiscoverSummaryFields :=
  ⟨rfl, rfl, rfl, rfl⟩

/-- While the interval is polling, folding poll responses over the view
replaces the live logs with the last present payload (or leaves them if
none was present), and polling stays on. -/
theorem applyEvents_pollSuccess (polls : List (Option (List String)))
    (v : ProgressView) (hv : v.polling = true) :
    (applyEvents v (polls.map ProgressEvent.pollSuccess)).liveLogs =
      (lastSome polls).getD v.liveLogs ∧
    (applyEvents v (polls.map ProgressEvent.pollSuccess)).polling = true := by
  induction polls generalizing v with
  | nil => exact ⟨rfl, hv⟩
  | cons p ps ih =>
      have hstep : (progressStep v (.pollSuccess p)).polling = true := by
        cases p <;> simp [progressStep, hv]
      have h := ih (progressStep v (.pollSuccess p)) hstep
      have hcons : applyEvents v ((p :: ps).map ProgressEvent.pollSuccess) =
          applyEvents (progressStep v (.pollSuccess p))
            (ps.map ProgressEvent.pollSuccess) := rfl
      refine ⟨?_, by rw [hcons]; exact h.2⟩
      rw [hcons, h.1]
      cases p with
      | none =>
          cases hls : lastSome ps <;>
            simp [lastSome, hls, progressStep, hv]
      | some l =>
          cases hls : lastSome ps <;>
            simp [lastSome, hls, progressStep, hv]

/-- Claim C4: the live-progress log lifecycle.  Over a whole run trace
(run start, then any sequence of successful polls, then run end) the
displayed logs end up equal to the last polled payload; run start resets
them to empty and starts the 2000 ms interval; each successful poll
while polling wholly replaces them; run end stops polling and leaves the
last-seen lines intact; once polling has ceased a poll response changes
nothing. -/
theorem C4_progress_lifecycle (v : ProgressView)
    (polls : List (Option (List String))) (l : List String) :
    pollIntervalMs = 2000 ∧
    (applyEvents v (ProgressEvent.runStart ::
        (polls.map ProgressEvent.pollSuccess ++
         [ProgressEvent.runEnd]))).liveLogs = (lastSome polls).getD [] ∧
    (applyEvents v (ProgressEvent.runStart ::
        (polls.map ProgressEvent.pollSuccess ++
         [ProgressEvent.runEnd]))).polling = false ∧
    (progressStep v ProgressEvent.runStart).liveLogs = [] ∧
    (progressStep v ProgressEvent.runStart).polling = true ∧
    (v.polling = true →
      (progressStep v (ProgressEvent.pollSuccess (some l))).liveLogs = l) ∧
    (progressStep v ProgressEvent.runEnd).liveLogs = v.liveLogs ∧
    (v.polling = false →
      (progressStep v (ProgressEvent.pollSuccess (some l))).liveLogs =
        v.liveLogs) := by
  have key := applyEvents_pollSuccess polls
    { polling := true, liveLogs := [] } rfl
  have hassoc : applyEvents v (ProgressEvent.runStart ::
      (polls.map ProgressEvent.pollSuccess ++ [ProgressEvent.runEnd])) =
      progressStep (applyEvents { polling := true, liveLogs := [] }
        (polls.map ProgressEvent.pollSuccess)) ProgressEvent.runEnd := by
    show List.foldl progressStep (progressStep v ProgressEvent.runStart)
      (polls.map ProgressEvent.pollSuccess ++ [ProgressEvent.runEnd]) = _
    rw [List.foldl_append]
    rfl
  refine ⟨rfl, ?_, ?_, rfl, rfl, fun hv => ?_, rfl, fun hv => ?_⟩
  · rw [hassoc]
    exact key.1
  · rw [hassoc]
    rfl
  · simp [progressStep, hv]
  · simp [progressStep, hv]

/-- The live-progress view before any run: not polling, no lines. -/
def idleView : ProgressView := { polling := false, liveLogs := [] }

/-- Witness for C4_progress_lifecycle on a concrete three-poll run. -/
theorem C4_witness :
    (applyEvents idleView (ProgressEvent.runStart ::
        ([some ["a"], none, some ["b", "c"]].map ProgressEvent.pollSuccess ++
         [ProgressEvent.runEnd]))).liveLogs = ["b", "c"] ∧
    (progressStep idleView
      (ProgressEvent.pollSuccess (some ["w"]))).liveLogs =
      idleView.liveLogs := by
  have h := C4_progress_lifecycle idleView
    [some ["a"], none, some ["b", "c"]] ["w"]
  refine ⟨?_, h.2.2.2.2.2.2.2 rfl⟩
  rw [h.2.1]
  decide

/-- Claim C8: discovery clears the discovered and selected lists before
the attempt; a successful discovery with nonempty courts selects exactly
the discovered court numbers in response order; and every selection
operation reachable from the UI (toggling a discovered court number,
select-all, deselect-all) keeps selectedCourts inside the court numbers
of the discovered list. -/
theorem C8_selection_invariant (token : String) (s : AdminState)
    (data : CourtDiscoveryResponse) (c : String) (sel : List String)
    (d : List Court) (hdate : ¬ s.discoveryDate = "") :
    ((discoverCourtsBegin token s).1.discoveredCourts = [] ∧
     (discoverCourtsBegin token s).1.selectedCourts = []) ∧
    (data.courts ≠ [] →
      (discoverCourtsResolve ((discoverCourtsBegin token s).1)
        (DiscoverOutcome.ok data)).selectedCourts =
        courtNumbers data.courts) ∧
    ((∀ x ∈ sel, x ∈ courtNumbers d) → c ∈ courtNumbers d →
      ∀ x ∈ toggleCourtSelection c sel, x ∈ courtNumbers d) ∧
    (∀ x ∈ selectAllCourts d, x ∈ courtNumbers d) ∧
    (∀ x ∈ (deselectAllCourts : List String), x ∈ courtNumbers d) := by
  refine ⟨?_, fun hne => ?_, fun hsub hc x hx => ?_, fun x hx => hx, ?_⟩
  · constructor <;> simp [discoverCourtsBegin, hdate]
  · have hpos : data.courts.length > 0 := List.length_pos.mpr hne
    simp [discoverCourtsResolve, courtNumbers, hpos]
  · unfold toggleCourtSelection at hx
    by_cases hm : c ∈ sel
    · rw [if_pos hm] at hx
      exact hsub x (List.mem_of_mem_filter hx)
    · rw [if_neg hm] at hx
      rcases List.mem_append.mp hx with h1 | h1
      · exact hsub x h1
      · rw [List.mem_singleton.mp h1]
        exact hc
  · intro x hx
    simp [deselectAllCourts] at hx

/-- The two courts of the concrete discovery response used as C8
input. -/
def c8Courts : List Court :=
  [{ court_number := "3", court_name := "Court 3", judge := "Judge A",
     url := "u3", has_data := true },
   { court_number := "17", court_name := "Court 17", judge := "Judge B",
     url := "u17", has_data := true }]

/-- A concrete discovery response with two courts. -/
def c8Data : CourtDiscoveryResponse :=
  { date := "2025-01-15", total_courts_checked := 60,
    courts_with_data := 2, courts := c8Courts }

/-- Witness for C8_selection_invariant on the concrete two-court
discovery. -/
theorem C8_witness :
    (discoverCourtsResolve ((discoverCourtsBegin "tok" c2State).1)
      (DiscoverOutcome.ok c8Data)).selectedCourts = ["3", "17"] ∧
    "17" ∈ courtNumbers c8Courts := by
  have h := C8_selection_invariant "tok" c2State c8Data "3" ["17"]
    c8Courts (by decide)
  constructor
  · rw [h.2.1 (by decide)]
    decide
  · exact h.2.2.1 (by decide) (by decide) "17" (by decide)

/-- Membership in a toggled selection: an element is selected afterwards
iff it was selected and is not the toggled number, or it is the toggled
number and was not selected. -/
theorem mem_toggleCourtSelection (c x : String) (prev : List String) :
    x ∈ toggleCourtSelection c prev ↔
      ((x ∈ prev ∧ x ≠ c) ∨ (x = c ∧ c ∉ prev)) := by
  unfold toggleCourtSelection
  by_cases hm : c ∈ prev
  · rw [if_pos hm]
    rw [List.mem_filter]
    constructor
    · intro hx
      exact Or.inl ⟨hx.1, by simpa [bne_iff_ne] using hx.2⟩
    · rintro (⟨hx, hxc⟩ | ⟨_, hcn⟩)
      · exact ⟨hx, by simpa [bne_iff_ne] using hxc⟩
      · exact absurd hm hcn
  · rw [if_neg hm]
    rw [List.mem_append, List.mem_singleton]
    constructor
    · rintro (hx | hx)
      · exact Or.inl ⟨hx, fun he => hm (he ▸ hx)⟩
      · exact Or.inr ⟨hx, hm⟩
    · rintro (⟨hx, _⟩ | ⟨hx, _⟩)
      · exact Or.inl hx
      · exact Or.inr hx

/-- Claim C9: on a duplicate-free selection, toggling removes a selected
number and appends an unselected one (the membership characterization),
never introduces duplicates, and applied twice restores the same
selected set (involution up to ordering). -/
theorem C9_toggle_involution (prev : List String) (c : String)
    (h : prev.Nodup) :
    (∀ x, x ∈ toggleCourtSelection c prev ↔
      ((x ∈ prev ∧ x ≠ c) ∨ (x = c ∧ c ∉ prev))) ∧
    (toggleCourtSelection c prev).Nodup ∧
    (∀ x, x ∈ toggleCourtSelection c (toggleCourtSelection c prev) ↔
      x ∈ prev) := by
  refine ⟨fun x => mem_toggleCourtSelection c x prev, ?_, fun x => ?_⟩
  · unfold toggleCourtSelection
    by_cases hm : c ∈ prev
    · rw [if_pos hm]
      exact h.filter _
    · rw [if_neg hm]
      rw [List.nodup_append]
      refine ⟨h, List.nodup_singleton c, ?_⟩
      intro a ha hac
      rw [List.mem_singleton] at hac
      exact hm (hac ▸ ha)
  · rw [mem_toggleCourtSelection, mem_toggleCourtSelection,
      mem_toggleCourtSelection]
    by_cases hm : c ∈ prev <;> by_cases hxc : x = c <;>
      simp [hm, hxc]

/-- Witness for C9_toggle_involution on a concrete two-element
selection. -/
theorem C9_witness :
    (toggleCourtSelection "2" ["1", "2"]).Nodup ∧
    ("1" ∈ toggleCourtSelection "2" (toggleCourtSelection "2" ["1", "2"])) := by
  have h := C9_toggle_involution ["1", "2"] "2" (by decide)
  exact ⟨h.2.1, (h.2.2 "1").mpr (by decide)⟩

/-- Whether a login outcome is an ok response. -/
def isOkOutcome : LoginOutcome → Bool
  | .ok _ => true
  | _ => false

/-- Claim C10: the login flow stores the token and navigates to the
search page exactly on an ok response; a non-ok response yields Invalid
credentials with no token stored; an abort (the 10000 ms timer firing)
yields a distinct timeout message; and every outcome clears loading and
cancels the timer. -/
theorem C10_login_outcomes (tok : String) (o : LoginOutcome) :
    ((handleLogin (LoginOutcome.ok tok)).storedToken = some tok ∧
     (handleLogin (LoginOutcome.ok tok)).navigatedTo = some "/search") ∧
    ((handleLogin LoginOutcome.notOk).error = "Invalid credentials" ∧
     (handleLogin LoginOutcome.notOk).storedToken = none ∧
     (handleLogin LoginOutcome.notOk).navigatedTo = none) ∧
    ((handleLogin LoginOutcome.aborted).error =
       "Login timed out. Please ensure the backend API is running and try again." ∧
     (handleLogin LoginOutcome.aborted).error ≠ "Invalid credentials" ∧
     (handleLogin LoginOutcome.aborted).storedToken = none) ∧
    ((handleLogin o).navigatedTo ≠ none → isOkOutcome o = true) ∧
    (handleLogin o).loading = false ∧
    (handleLogin o).timerCancelled = true ∧
    loginTimeoutMs = 10000 := by
  refine ⟨⟨rfl, rfl⟩, ⟨rfl, rfl, rfl⟩, ⟨rfl, by decide, rfl⟩,
    ?_, ?_, ?_, rfl⟩
  · intro hn
    cases o with
    | ok t => rfl
    | notOk => exact absurd rfl hn
    | aborted => exact absurd rfl hn
    | exn m => exact absurd rfl hn
  · cases o <;> rfl
  · cases o <;> rfl

/-- Witness for C10_login_outcomes at a concrete token and outcomes. -/
theorem C10_witness :
    (handleLogin (LoginOutcome.ok "abc")).storedToken = some "abc" ∧
    isOkOutcome (LoginOutcome.ok "abc") = true ∧
    (handleLogin LoginOutcome.notOk).loading = false := by
  have h1 := C10_login_outcomes "abc" (LoginOutcome.ok "abc")
  have h2 := C10_login_outcomes "abc" LoginOutcome.notOk
  exact ⟨h1.1.1, h1.2.2.2.1 (by decide), h2.2.2.2.2.1⟩
